import Mathlib

/-!
Shallow embedding of the EVI-Pro-Lite driver scripts
(`example_ny_ev_proj_mp.py`, `example_ny_ev_proj.py`, `ny_ev_proj.py`).

Numeric cell values (temperatures, fleet sizes, charging powers) are
modelled as rationals; pandas data frames are modelled column-wise or as
lists of records; the external model call `temp_run` is an opaque function
parameter; in-place mutation of the caller's frames is modelled by explicit
state passing (the function returns the frames as they are left after the
call).
-/

/-- A calendar date (proleptic Gregorian), as produced by
`pd.to_datetime(...).dt.date`. -/
structure Date where
  year : Nat
  month : Nat
  day : Nat
deriving DecidableEq, Repr

/-- Days elapsed since 0000-03-01 in the proleptic Gregorian calendar
(standard civil-from-days algorithm, valid for year ≥ 1, which covers all
dates handled by the scripts). -/
def daysFromCivil (dt : Date) : Nat :=
  let y := if dt.month ≤ 2 then dt.year - 1 else dt.year
  let era := y / 400
  let yoe := y % 400
  let mp := (dt.month + 9) % 12
  let doy := (153 * mp + 2) / 5 + dt.day - 1
  let doe := yoe * 365 + yoe / 4 - yoe / 100 + doy
  era * 146097 + doe

/-- Python's `datetime.date.weekday()`: 0 = Monday through 6 = Sunday.
1970-01-01 (719468 days after the epoch of `daysFromCivil`) was a Thursday,
weekday 3, and 719468 % 7 = 1, hence the offset 2. -/
def pyWeekday (dt : Date) : Nat :=
  (daysFromCivil dt + 2) % 7

/-- The caller's temperature frame before `county_run`: columns
`date` and `temperature`. -/
structure TempFrameIn where
  date : List Date
  temperature : List ℚ
deriving DecidableEq, Repr

/-- The temperature frame as `county_run` leaves it: the `temperature`
column has been dropped and `weekday` and `temp_c` columns added. -/
structure TempFrameOut where
  date : List Date
  weekday : List Nat
  temp_c : List ℚ
deriving DecidableEq, Repr

/-- Column labels of the incoming temperature frame (pandas `df.columns`). -/
def tempFrameInColumns : List String := ["date", "temperature"]

/-- Effect of the temperature-handling block on the column list:
`weekday` and `temp_c` are appended by assignment, then `temperature`
is dropped in place. -/
def handleTempColumns (cs : List String) : List String :=
  ((cs ++ ["weekday"]) ++ ["temp_c"]).filter (· ≠ "temperature")

/-- The temperature-handling block of `county_run`:
`temp_csv['weekday'] = temp_csv['date'].apply(lambda x: x.weekday())`,
`temp_csv['temp_c'] = temp_csv['temperature']`,
`temp_csv.drop('temperature', axis=1, inplace=True)`. -/
def handleTemp (f : TempFrameIn) : TempFrameOut :=
  { date := f.date
    weekday := f.date.map pyWeekday
    temp_c := f.temperature }

/-- One row of the scenario table (the fields of `scenario_dict`). -/
structure ScenarioRecord where
  fleet_size : ℚ
  mean_dvmt : ℚ
  temp_c : ℚ
  pev_type : String
  pev_dist : String
  class_dist : String
  home_access_dist : String
  home_power_dist : String
  work_power_dist : String
  pref_dist : String
  res_charging : String
  work_charging : String
deriving DecidableEq, Repr

/-- The small-fleet handling of `county_run` for one scenario row:
`if row['fleet_size'] < 30000:` substitute 10000 and record
`row['fleet_size'] / 10000` as the scaling factor (the factor defaults
to 1). Returns the row as left in the scenario frame, paired with the
scaling factor. -/
def correctFleet (s : ScenarioRecord) : ScenarioRecord × ℚ :=
  if s.fleet_size < 30000 then
    ({ s with fleet_size := 10000 }, s.fleet_size / 10000)
  else
    (s, 1)

/-- A per-scenario result table from the external model: a time index and
named numeric columns, in column order. -/
structure ResultTable where
  index : List String
  cols : List (String × List ℚ)
deriving DecidableEq, Repr

/-- The six charging-power columns scaled by `county_run`. -/
def powerCols : List String :=
  ["home_l1", "home_l2", "work_l1", "work_l2", "public_l2", "public_l3"]

/-- The scaling assignment
`final_result[scenario][powerCols] = final_result[scenario][powerCols] * factor`:
multiply exactly the six charging-power columns element-wise, leaving the
index and every other column as they were. -/
def scaleTable (t : ResultTable) (factor : ℚ) : ResultTable :=
  { index := t.index
    cols := t.cols.map fun c =>
      if c.1 ∈ powerCols then (c.1, c.2.map (· * factor)) else c }

/-- What `county_run` leaves behind: the caller's two frames as mutated in
place, and the returned result. -/
structure CountyRunOut where
  temp : TempFrameOut
  scen : List ScenarioRecord
  result : List ResultTable
deriving Repr

/-- The scenario frame as the small-fleet loop leaves it. -/
def correctedScens (scen : List ScenarioRecord) : List ScenarioRecord :=
  (scen.map correctFleet).map Prod.fst

/-- The `scaling_factor` array after the small-fleet loop (initialised
to ones, overwritten for rows with `fleet_size < 30000`). -/
def scalingFactors (scen : List ScenarioRecord) : List ℚ :=
  (scen.map correctFleet).map Prod.snd

/-- Model of `county_run` from `example_ny_ev_proj_mp.py`: handle the temperature
frame, substitute small fleet sizes recording scaling factors, call the
external model (`ext`, the opaque `temp_run`), then multiply the six
charging-power columns of every scenario whose scaling factor is not 1. -/
def countyRun (temp : TempFrameIn) (scen : List ScenarioRecord)
    (ext : List ScenarioRecord → TempFrameOut → List ResultTable) :
    CountyRunOut :=
  let temp' := handleTemp temp
  let scen' := correctedScens scen
  let factors := scalingFactors scen
  let raw := ext scen' temp'
  let final := List.zipWith
    (fun t f => if f ≠ 1 then scaleTable t f else t) raw factors
  { temp := temp', scen := scen', result := final }

/-- The example scenario template of the mp script, with a given fleet
size (all other fields as in `scenario_dict` with `res_charging` taken
from its first entry). -/
def exampleScen (fs : ℚ) : ScenarioRecord :=
  ⟨fs, 35, 0, "PHEV50", "EQUAL", "Equal", "HA75", "MostL1", "MostL2",
    "Home60", "min_delay", "min_delay"⟩

/-- Whitespace removed at both ends of a character list. -/
def stripChars (cs : List Char) : List Char :=
  ((cs.dropWhile Char.isWhitespace).reverse.dropWhile Char.isWhitespace).reverse

/-- Python's `str.strip()` (whitespace removed at both ends); for the
ASCII credential lines handled here, stripping the space/tab/newline
class of `Char.isWhitespace` has the same behaviour. -/
def pyStrip (s : String) : String := String.mk (stripChars s.data)

/-- The credential-file loop of `example_ny_ev_proj_mp.py`: a line is
accepted iff its stripped form is nonempty and has length 40; accepted
lines contribute their stripped form to the pool, every other line
produces an `Invalid API key` warning. Returns (pool, warnings), each in
file order. -/
def keyScan : List String → List String × List String
  | [] => ([], [])
  | l :: ls =>
    let rest := keyScan ls
    let t := pyStrip l
    if t ≠ "" ∧ t.length = 40 then (t :: rest.1, rest.2)
    else (rest.1, ("Invalid API key: " ++ t) :: rest.2)

/-- Outcome of the credential-setup phase of the mp script: either a
non-empty pool of keys, or a fatal abort (`sys.exit()`). -/
inductive KeySetup where
  | keys (pool : List String)
  | abort
deriving DecidableEq, Repr

/-- Credential setup of the mp script when the credential file exists:
scan the file's lines; if at least one valid key was found, use the pool;
otherwise prompt interactively and abort unless the entered key has
length 40. -/
def setupKeysFromFile (lines : List String) (entered : String) : KeySetup :=
  let pool := (keyScan lines).1
  if pool.length > 0 then .keys pool
  else if entered.length ≠ 40 then .abort
  else .keys [entered]

/-- Number of tasks the mp script submits to the executor given the
credential-setup outcome and `n` work items: `sys.exit()` happens before
the dispatch loop, so an abort dispatches zero tasks. -/
def tasksDispatched (k : KeySetup) (n : Nat) : Nat :=
  match k with
  | .abort => 0
  | .keys _ => n

/-- The single-credential scripts read the key file verbatim
(`api_key = f.read()`), without stripping. -/
def readKeySingle (content : String) : String := content

/-- The validity check of the single-credential scripts
(`example_ny_ev_proj.py`, `ny_ev_proj.py`): a key whose length is not 40
is replaced by the demo credential and the run proceeds. -/
def resolveSingleKey (k : String) : String :=
  if k.length ≠ 40 then "DEMO_KEY" else k

/-- Key rotation `api_key_index = i % n_api_key; api_key = api_key_list[api_key_index]`.
The pool is guaranteed non-empty by `setupKeysFromFile`, so the default
is never consulted. -/
def assignKey (pool : List String) (i : Nat) : String :=
  pool.getD (i % pool.length) ""

/-- The keys handed to the `n` submitted tasks, in submission order. -/
def submittedKeys (pool : List String) (n : Nat) : List String :=
  (List.range n).map (assignKey pool)

/-- The result-collection loop
`for i, future in enumerate(as_completed(futures))`: `order` lists, by
completion position, the submission index of the future completing at
that position; the loop reads `future.result()` (the result of submission
index `order[i]`) but labels it `county_names[i]`, the county at the
completion position. -/
def collectAsCompleted (counties : List String)
    (results : List (List ResultTable)) (order : List Nat) :
    List (String × Option (List ResultTable)) :=
  order.enum.map fun p => (counties.getD p.1 "", results.get? p.2)

/-- A 40-character credential of `A`s ("A"*40). -/
def keyA40 : String := String.mk (List.replicate 40 'A')

/-- A 40-character credential of `B`s ("B"*40). -/
def keyB40 : String := String.mk (List.replicate 40 'B')

/-- A raw external result table used in concrete instantiations: the
`home_l1` column is `[100, 200]` over a two-step time index. -/
def rawC1 : ResultTable := ⟨["t0", "t1"], [("home_l1", [100, 200])]⟩

/- Helper lemmas. -/

lemma ne_empty_of_length_forty {t : String} (h : t.length = 40) : t ≠ "" := by
  intro e
  rw [e] at h
  exact absurd h (by decide)

lemma keyScan_fst (lines : List String) :
    (keyScan lines).1 = (lines.map pyStrip).filter fun t => t.length == 40 := by
  induction lines with
  | nil => rfl
  | cons l ls ih =>
    by_cases h : (pyStrip l).length = 40
    · have hne : pyStrip l ≠ "" := ne_empty_of_length_forty h
      simp [keyScan, hne, h, ih]
    · have hcond : ¬(pyStrip l ≠ "" ∧ (pyStrip l).length = 40) := fun hc => h hc.2
      simp [keyScan, hcond, h, ih]

lemma keyScan_snd (lines : List String) :
    (keyScan lines).2 =
      ((lines.map pyStrip).filter fun t => !(t.length == 40)).map
        fun t => "Invalid API key: " ++ t := by
  induction lines with
  | nil => rfl
  | cons l ls ih =>
    by_cases h : (pyStrip l).length = 40
    · have hne : pyStrip l ≠ "" := ne_empty_of_length_forty h
      simp [keyScan, hne, h, ih]
    · have hcond : ¬(pyStrip l ≠ "" ∧ (pyStrip l).length = 40) := fun hc => h hc.2
      simp [keyScan, hcond, h, ih]

lemma setup_abort_of_all_invalid {lines : List String} {entered : String}
    (hl : ∀ l ∈ lines, (pyStrip l).length ≠ 40) (he : entered.length ≠ 40) :
    setupKeysFromFile lines entered = .abort := by
  have hpool : (keyScan lines).1 = [] := by
    rw [keyScan_fst, List.filter_eq_nil_iff]
    intro t ht
    obtain ⟨l, hlmem, rfl⟩ := List.mem_map.1 ht
    simpa using hl l hlmem
  simp [setupKeysFromFile, hpool, he]

lemma scalingFactors_getElem {scen : List ScenarioRecord} {i : Nat}
    {s : ScenarioRecord} (hs : scen[i]? = some s) :
    (scalingFactors scen)[i]? = some (correctFleet s).2 := by
  simp [scalingFactors, List.getElem?_map, hs]

lemma scaleTable_mem_of_not_power {c : String} (hc : c ∉ powerCols)
    (t : ResultTable) (f : ℚ) (vs : List ℚ) :
    (c, vs) ∈ (scaleTable t f).cols ↔ (c, vs) ∈ t.cols := by
  constructor
  · intro h
    obtain ⟨p, hp, hpe⟩ := List.mem_map.1 h
    by_cases hpc : p.1 ∈ powerCols
    · rw [if_pos hpc] at hpe
      have h1 : p.1 = c := congrArg Prod.fst hpe
      exact absurd (h1 ▸ hpc) hc
    · rw [if_neg hpc] at hpe
      rwa [hpe] at hp
  · intro h
    have hmem := List.mem_map_of_mem
      (fun p : String × List ℚ =>
        if p.1 ∈ powerCols then (p.1, p.2.map (· * f)) else p) h
    simpa [scaleTable, hc] using hmem


/-- C1: for every scenario record whose `fleet_size` is below 10000,
after the external call returns, the scenario's entry of the final
result is the raw external table with each of the six charging-power
columns multiplied element-wise by `original_fleet_size / 10000`. -/
theorem fleet_below_floor_scaled
    (temp : TempFrameIn) (scen : List ScenarioRecord)
    (ext : List ScenarioRecord → TempFrameOut → List ResultTable)
    (i : Nat) (s : ScenarioRecord) (t : ResultTable)
    (hs : scen[i]? = some s) (hfl : s.fleet_size < 10000)
    (ht : (ext (correctedScens scen) (handleTemp temp))[i]? = some t) :
    (countyRun temp scen ext).result[i]? =
      some (scaleTable t (s.fleet_size / 10000)) ∧
    ∀ c vs, c ∈ powerCols → (c, vs) ∈ t.cols →
      (c, vs.map (· * (s.fleet_size / 10000))) ∈
        (scaleTable t (s.fleet_size / 10000)).cols := by
  have hflt : s.fleet_size < 30000 := hfl.trans (by norm_num)
  have hfac : (correctFleet s).2 = s.fleet_size / 10000 := by
    simp [correctFleet, if_pos hflt]
  have hne : s.fleet_size / 10000 ≠ 1 :=
    ne_of_lt ((div_lt_one (by norm_num)).2 hfl)
  constructor
  · have hfacs : (scalingFactors scen)[i]? = some (s.fleet_size / 10000) := by
      rw [scalingFactors_getElem hs, hfac]
    show (List.zipWith (fun t f => if f ≠ 1 then scaleTable t f else t)
        (ext (correctedScens scen) (handleTemp temp))
        (scalingFactors scen))[i]? = _
    rw [List.getElem?_zipWith', ht, hfacs]
    simp [hne]
  · intro c vs hc hm
    have hmem := List.mem_map_of_mem
      (fun p : String × List ℚ =>
        if p.1 ∈ powerCols then (p.1, p.2.map (· * (s.fleet_size / 10000)))
        else p) hm
    simpa [scaleTable, hc] using hmem

/-- C1 witness: fleet size 5000 gives scale factor 1/2, and a raw
`home_l1` column `[100, 200]` becomes `[50, 100]`. -/
theorem fleet_below_floor_scaled_witness :
    (countyRun ⟨[], []⟩ [exampleScen 5000] fun _ _ => [rawC1]).result[0]? =
      some ⟨["t0", "t1"], [("home_l1", [50, 100])]⟩ := by
  have h := fleet_below_floor_scaled ⟨[], []⟩ [exampleScen 5000]
    (fun _ _ => [rawC1]) 0 (exampleScen 5000) rawC1 rfl
    (by norm_num [exampleScen]) rfl
  rw [h.1]
  norm_num [scaleTable, rawC1, powerCols, exampleScen]

/-- C2 counterexample: a scenario with fleet size 15000 (≥ 10000) is
not passed through unmodified: the fleet size is substituted, the
recorded factor is not 1, and the output differs from the raw result. -/
theorem fleet_15000_not_identity :
    (10000 : ℚ) ≤ (exampleScen 15000).fleet_size ∧
    correctFleet (exampleScen 15000) ≠ (exampleScen 15000, 1) ∧
    (countyRun ⟨[], []⟩ [exampleScen 15000] fun _ _ => [rawC1]).result ≠
      [rawC1] := by
  refine ⟨by norm_num [exampleScen], ?_, ?_⟩
  · intro h
    have h1 := congrArg (fun p : ScenarioRecord × ℚ => p.1.fleet_size) h
    norm_num [correctFleet, exampleScen] at h1
  · intro h
    have hval : (countyRun ⟨[], []⟩ [exampleScen 15000]
        fun _ _ => [rawC1]).result =
        [⟨["t0", "t1"], [("home_l1", [150, 300])]⟩] := by
      norm_num [countyRun, correctedScens, scalingFactors, correctFleet,
        exampleScen, scaleTable, rawC1, powerCols, handleTemp]
    rw [hval] at h
    exact absurd h (by decide)

/-- C2 amended: for every scenario record whose `fleet_size` is at least
30000 (the threshold the code actually tests), the correction is the
identity: the recorded scale factor is 1, the fleet size is not
substituted, and the scenario's output equals the raw external result. -/
theorem fleet_at_least_30000_identity
    (temp : TempFrameIn) (scen : List ScenarioRecord)
    (ext : List ScenarioRecord → TempFrameOut → List ResultTable)
    (i : Nat) (s : ScenarioRecord)
    (hs : scen[i]? = some s) (hfl : 30000 ≤ s.fleet_size) :
    (countyRun temp scen ext).scen[i]? = some s ∧
    (scalingFactors scen)[i]? = some 1 ∧
    (countyRun temp scen ext).result[i]? =
      (ext (correctedScens scen) (handleTemp temp))[i]? := by
  have hcf : correctFleet s = (s, 1) := by
    simp [correctFleet, not_lt.2 hfl]
  refine ⟨?_, ?_, ?_⟩
  · show (correctedScens scen)[i]? = some s
    simp [correctedScens, List.getElem?_map, hs, hcf]
  · rw [scalingFactors_getElem hs, hcf]
  · show (List.zipWith (fun t f => if f ≠ 1 then scaleTable t f else t)
        (ext (correctedScens scen) (handleTemp temp))
        (scalingFactors scen))[i]? = _
    rw [List.getElem?_zipWith', scalingFactors_getElem hs, hcf]
    cases hraw : (ext (correctedScens scen) (handleTemp temp))[i]? with
    | none => simp
    | some t => simp

/-- C2 amended witness: fleet size exactly 30000 is left alone and its
result equals the raw external table. -/
theorem fleet_at_least_30000_identity_witness :
    (countyRun ⟨[], []⟩ [exampleScen 30000] fun _ _ => [rawC1]).result[0]? =
      some rawC1 := by
  have h := fleet_at_least_30000_identity ⟨[], []⟩ [exampleScen 30000]
    (fun _ _ => [rawC1]) 0 (exampleScen 30000) rfl (by norm_num [exampleScen])
  rw [h.2.2]
  rfl

/-- C3 (code divergence): with three counties and completion order
[1, 0, 2], the `enumerate(as_completed(...))` loop labels the result of
submission index 1 with the county at completion position 0: the
produced pairing differs from the pairing by originating county, even
though every result is consumed exactly once. -/
theorem as_completed_positional_mislabeling :
    collectAsCompleted ["c0", "c1", "c2"]
        [[⟨["r0"], []⟩], [⟨["r1"], []⟩], [⟨["r2"], []⟩]] [1, 0, 2] =
      [("c0", some [⟨["r1"], []⟩]), ("c1", some [⟨["r0"], []⟩]),
        ("c2", some [⟨["r2"], []⟩])] ∧
    collectAsCompleted ["c0", "c1", "c2"]
        [[⟨["r0"], []⟩], [⟨["r1"], []⟩], [⟨["r2"], []⟩]] [1, 0, 2] ≠
      [("c0", some [⟨["r0"], []⟩]), ("c1", some [⟨["r1"], []⟩]),
        ("c2", some [⟨["r2"], []⟩])] :=
  ⟨by decide, by decide⟩

/-- C4: credential assignment is a pure function of the task index and
the pool: task `i` receives `pool[i % len(pool)]`; with pool
["A"*40, "B"*40] and 5 work items, tasks 0..4 get [A, B, A, B, A]. -/
theorem key_assignment_round_robin :
    (∀ (pool : List String) (n i : Nat),
      (submittedKeys pool n)[i]? =
        if i < n then some (pool.getD (i % pool.length) "") else none) ∧
    submittedKeys [keyA40, keyB40] 5 =
      [keyA40, keyB40, keyA40, keyB40, keyA40] := by
  constructor
  · intro pool n i
    by_cases h : i < n
    · rw [if_pos h]
      simp [submittedKeys, assignKey, List.getElem?_map, List.getElem?_range, h]
    · rw [if_neg h]
      apply List.getElem?_eq_none
      simpa [submittedKeys] using Nat.le_of_not_lt h
  · decide

/-- C5: exactly the stripped lines of length 40 are accepted into the
pool, every other line is rejected with an `Invalid API key` warning,
and when every line is invalid and the interactively entered key is also
invalid, the run aborts with zero tasks dispatched. -/
theorem credential_file_policy
    (lines : List String) (entered : String) (n : Nat) :
    ((keyScan lines).1 = (lines.map pyStrip).filter fun t => t.length == 40) ∧
    ((keyScan lines).2 =
      ((lines.map pyStrip).filter fun t => !(t.length == 40)).map
        fun t => "Invalid API key: " ++ t) ∧
    ((∀ l ∈ lines, (pyStrip l).length ≠ 40) → entered.length ≠ 40 →
      setupKeysFromFile lines entered = .abort ∧
      tasksDispatched (setupKeysFromFile lines entered) n = 0) := by
  refine ⟨keyScan_fst lines, keyScan_snd lines, fun hl he => ?_⟩
  have h := setup_abort_of_all_invalid hl he
  exact ⟨h, by simp [h, tasksDispatched]⟩

/-- C5 witness: a file whose three lines are all invalid, together with
an invalid interactive key, aborts the run and dispatches zero of the
7 work items. -/
theorem credential_file_policy_witness :
    setupKeysFromFile ["not-a-key", "  ", "0123456789"] "oops" = .abort ∧
    tasksDispatched (setupKeysFromFile ["not-a-key", "  ", "0123456789"]
      "oops") 7 = 0 :=
  (credential_file_policy ["not-a-key", "  ", "0123456789"] "oops" 7).2.2
    (by decide) (by decide)

/-- C6: the post-call correction is a frame property: a scenario whose
scale factor is 1 keeps its raw table byte-for-byte, and for any scaled
scenario the time index and every column outside the six charging-power
columns are unchanged. -/
theorem scaling_frame_property
    (temp : TempFrameIn) (scen : List ScenarioRecord)
    (ext : List ScenarioRecord → TempFrameOut → List ResultTable)
    (i : Nat) (t : ResultTable)
    (hraw : (ext (correctedScens scen) (handleTemp temp))[i]? = some t) :
    ((scalingFactors scen)[i]? = some 1 →
      (countyRun temp scen ext).result[i]? = some t) ∧
    (∀ t', (countyRun temp scen ext).result[i]? = some t' →
      t'.index = t.index ∧
      ∀ c vs, c ∉ powerCols → ((c, vs) ∈ t'.cols ↔ (c, vs) ∈ t.cols)) := by
  constructor
  · intro hf
    show (List.zipWith (fun t f => if f ≠ 1 then scaleTable t f else t)
        (ext (correctedScens scen) (handleTemp temp))
        (scalingFactors scen))[i]? = _
    rw [List.getElem?_zipWith', hraw, hf]
    simp
  · intro t' ht'
    have h2 : (List.zipWith (fun t f => if f ≠ 1 then scaleTable t f else t)
        (ext (correctedScens scen) (handleTemp temp))
        (scalingFactors scen))[i]? = some t' := ht'
    rw [List.getElem?_zipWith', hraw] at h2
    cases hfq : (scalingFactors scen)[i]? with
    | none => rw [hfq] at h2; simp at h2
    | some q =>
      rw [hfq] at h2
      simp only [Option.map_some', Option.some_bind] at h2
      by_cases hq : q = 1
      · rw [if_neg (by simp [hq])] at h2
        cases h2
        exact ⟨rfl, fun c vs hc => Iff.rfl⟩
      · rw [if_pos hq] at h2
        cases h2
        exact ⟨rfl, fun c vs hc => scaleTable_mem_of_not_power hc t q vs⟩

/-- A raw table with a charging-power column and an unrelated column. -/
def rawExtra : ResultTable := ⟨["t0"], [("home_l1", [100]), ("extra", [7])]⟩

/-- C6 witness: a scenario with fleet size 50000 has scale factor 1 and
its raw table (power column and extra column alike) is returned
unchanged. -/
theorem scaling_frame_property_witness :
    (countyRun ⟨[], []⟩ [exampleScen 50000] fun _ _ => [rawExtra]).result[0]? =
      some rawExtra :=
  (scaling_frame_property ⟨[], []⟩ [exampleScen 50000]
    (fun _ _ => [rawExtra]) 0 rawExtra rfl).1
    (by norm_num [scalingFactors, correctFleet, exampleScen])

/-- C7: in the single-credential scripts an invalid credential (length
≠ 40) does not abort: the demo credential is used instead; in the
multi-key script a file of only invalid lines together with an invalid
interactive entry aborts. -/
theorem single_key_demo_fallback
    (k : String) (hk : k.length ≠ 40)
    (lines : List String) (entered : String)
    (hl : ∀ l ∈ lines, (pyStrip l).length ≠ 40) (he : entered.length ≠ 40) :
    resolveSingleKey k = "DEMO_KEY" ∧
    setupKeysFromFile lines entered = .abort :=
  ⟨by simp [resolveSingleKey, hk], setup_abort_of_all_invalid hl he⟩

/-- C7 witness: the 4-character key "oops" degrades to the demo
credential in the single-key path, while an all-invalid key file plus an
invalid interactive entry aborts the multi-key path. -/
theorem single_key_demo_fallback_witness :
    resolveSingleKey "oops" = "DEMO_KEY" ∧
    setupKeysFromFile ["bad-key"] "nope" = .abort :=
  single_key_demo_fallback "oops" (by decide) ["bad-key"] "nope"
    (by decide) (by decide)

/-- C8: every row of the assembled temperature series carries the
Python day-of-week of its date (Monday = 0 through Sunday = 6, anchored
on the week of Monday 2018-01-01), and a value below 5 is exactly a
non-Saturday/non-Sunday value. -/
theorem weekday_indicator_correct (f : TempFrameIn) (i : Nat) (d : Date)
    (hd : f.date[i]? = some d) :
    (handleTemp f).weekday[i]? = some (pyWeekday d) ∧
    (List.range 7).map (fun k => pyWeekday ⟨2018, 1, 1 + k⟩) =
      [0, 1, 2, 3, 4, 5, 6] ∧
    (pyWeekday d < 5 ↔ pyWeekday d ≠ 5 ∧ pyWeekday d ≠ 6) := by
  refine ⟨?_, by decide, ?_⟩
  · simp [handleTemp, List.getElem?_map, hd]
  · have h7 : pyWeekday d < 7 := Nat.mod_lt _ (by norm_num)
    omega

/-- C8 witness: the single-row frame for 2018-12-25 (a Tuesday) gets
weekday indicator 1. -/
theorem weekday_indicator_correct_witness :
    (handleTemp ⟨[⟨2018, 12, 25⟩], [5]⟩).weekday[0]? = some 1 := by
  have h := weekday_indicator_correct ⟨[⟨2018, 12, 25⟩], [5]⟩ 0
    ⟨2018, 12, 25⟩ rfl
  rw [h.1]
  decide

/-- C9: the single-credential scripts use the key-file content verbatim
(no stripping), so a 40-character key with a trailing newline has length
41, fails the check, and the demo credential is used, while the
multi-key script strips the same line and accepts the key. -/
theorem single_key_verbatim_demo_fallback :
    (∀ content : String, readKeySingle content = content) ∧
    (readKeySingle (keyA40 ++ "\n")).length = 41 ∧
    resolveSingleKey (readKeySingle (keyA40 ++ "\n")) = "DEMO_KEY" ∧
    (keyScan [keyA40 ++ "\n"]).1 = [keyA40] :=
  ⟨fun _ => rfl, by decide, by decide, by decide⟩

/-- C10: `county_run` leaves the caller's frames mutated: the
temperature frame ends with columns date/weekday/temp_c (the
`temperature` column renamed to `temp_c` plus a derived `weekday`), and
every fleet size below the threshold is overwritten with 10000 in the
caller's scenario frame. -/
theorem county_run_mutates_caller_frames
    (temp : TempFrameIn) (scen : List ScenarioRecord)
    (ext : List ScenarioRecord → TempFrameOut → List ResultTable) :
    (countyRun temp scen ext).temp =
      ⟨temp.date, temp.date.map pyWeekday, temp.temperature⟩ ∧
    handleTempColumns tempFrameInColumns = ["date", "weekday", "temp_c"] ∧
    (countyRun temp scen ext).scen = scen.map fun s =>
      if s.fleet_size < 30000 then { s with fleet_size := 10000 } else s := by
  refine ⟨rfl, by decide, ?_⟩
  show correctedScens scen = _
  rw [correctedScens, List.map_map]
  have hfun : (Prod.fst ∘ correctFleet) = fun s : ScenarioRecord =>
      if s.fleet_size < 30000 then { s with fleet_size := 10000 } else s := by
    funext s
    simp [correctFleet, apply_ite Prod.fst]
  rw [hfun]
